import Mathlib

/-!
Verification of `simple-fetch-api` (`src/index.ts`).

A shallow embedding of the TypeScript fetch wrapper in `src/index.ts`.
The platform primitives (`fetch`, `URL`, timers, `AbortController`) are
external collaborators; they are modelled as explicit oracle arguments
(`FetchResult` / transport functions) and as an executable approximation
of the WHATWG URL parser.  The repository's own functions (`buildUrl`,
`parseResponse`, `fetchCore`, `apiFetch`, and the convenience wrappers)
are translated line by line from the source.

Time is not modelled: `retryDelay` and `timeoutMs` influence only *when*
things happen, not *which* value is computed, except for the one
observable decision `apiFetch` makes from `timeoutMs` (whether the
timeout timer is armed at all), which is recorded in the returned trace.
-/

set_option autoImplicit false

namespace SimpleFetchApi

/-- A JavaScript exception value, as far as the code inspects it:
`fetchCore` only ever reads `err.name` (to detect `AbortError`). -/
structure Exn where
  name : String
  message : String := ""
deriving DecidableEq, Repr

/-- Embedding of `export type ApiErrorType = "network" | "http" | "parse" | "unknown"` -/
inductive ApiErrorType where
  | network
  | http
  | parse
  | unknown
deriving DecidableEq, Repr

/-- Shape of `export const errorMap` (lines 16-19). -/
structure ErrorMap where
  NETWORK_ERROR : String
  TIMEOUT : String

def errorMap : ErrorMap :=
  { NETWORK_ERROR := "Network Error", TIMEOUT := "Request Timeout" }

/-- Embedding of `export interface ApiError` (lines 24-30).  Optional TS fields become
`Option`, defaulting to `none` (the field absent). -/
structure ApiError where
  type : ApiErrorType
  message : String
  status : Option Nat := none
  statusText : Option String := none
  raw : Option Exn := none
deriving DecidableEq, Repr

/-- Embedding of `ApiResult<T> = ApiSuccess<T> | ApiFailure` (lines 35-54): the `ok`
discriminant is the constructor. -/
inductive ApiResult (T : Type) where
  | success (data : T) (status : Nat) (statusText : String)
      (headers : List (String × String))
  | failure (error : ApiError)
deriving DecidableEq, Repr

/-- The `ok` discriminant of an `ApiResult`. -/
def ApiResult.ok {T : Type} : ApiResult T → Bool
  | .success .. => true
  | .failure _ => false

/-- Embedding of `export interface RetryOptions` (lines 59-66). -/
structure RetryOptions where
  maxRetries : Nat
  retryDelay : Nat
  retryOn : Option (List Nat) := none
deriving DecidableEq, Repr

/-- A JS primitive usable as a query-parameter value
(`string | number | boolean`). -/
inductive Prim where
  | str (s : String)
  | num (n : Int)
  | bool (b : Bool)
deriving DecidableEq, Repr

/-- JS `String(value)` on a query-parameter primitive. -/
def Prim.toJSString : Prim → String
  | .str s => s
  | .num n => toString n
  | .bool b => cond b "true" "false"

/-- Embedding of `export interface ApiFetchOptions` (lines 71-92).  The body and the
external abort signal are not modelled: no claim concerns them, the
signal's effect reaches the code only through the transport oracle.
`params` is the ordered entry list that `Object.entries(params)` would
enumerate. -/
structure ApiFetchOptions where
  url : String
  method : Option String := none
  headers : List (String × String) := []
  params : Option (List (String × Prim)) := none
  responseType : Option String := none
  timeoutMs : Option Nat := none
  retry : Option RetryOptions := none
  skipBodyStringify : Option Bool := none
deriving DecidableEq, Repr

/-! ## The platform WHATWG URL object (external collaborator)

Executable approximation of `new URL(s)` / `url.toString()`: a string
parses iff it starts with a scheme (`new URL("not a url")` throws a
`TypeError`); the serializer re-joins the pre-query part with the query
pairs.  Percent-encoding and path normalisation are outside the model;
all concrete inputs in this development avoid them. -/

/-- A parsed URL: the part before `?` plus the parsed query pairs. -/
structure URL where
  base : String
  searchParams : List (String × String)
deriving DecidableEq, Repr

/-- Characters allowed after the first character of a URL scheme. -/
def isSchemeChar (c : Char) : Bool :=
  c.isAlphanum || c = '+' || c = '-' || c = '.'

/-- Whether a string starts with `scheme:` (letter, then scheme
characters, then a colon) — the check under which `new URL` succeeds in
this model. -/
def hasValidScheme (s : String) : Bool :=
  match s.toList with
  | [] => false
  | c :: rest => c.isAlpha && ((rest.dropWhile isSchemeChar).head? = some ':')

/-- Split a character list at the first occurrence of `sep`:
`none` when `sep` does not occur, otherwise the parts before and after
the first occurrence. -/
def breakAtChar (sep : Char) : List Char → Option (List Char × List Char)
  | [] => none
  | c :: cs =>
    if c = sep then some ([], cs)
    else
      match breakAtChar sep cs with
      | none => none
      | some (l, r) => some (c :: l, r)

/-- Split a character list on every occurrence of `sep`. -/
def splitCharsOn (sep : Char) : List Char → List (List Char)
  | [] => [[]]
  | c :: cs =>
    match splitCharsOn sep cs with
    | [] => if c = sep then [[], []] else [[c]]
    | h :: t => if c = sep then [] :: h :: t else (c :: h) :: t

/-- Split a URL string at the first `?` into pre-query part and query
string. -/
def splitAtQuery (s : String) : String × String :=
  match breakAtChar '?' s.toList with
  | none => (s, "")
  | some (b, q) => (String.mk b, String.mk q)

/-- Parse a query string `"k=v&k2=v2"` into its pairs (a key with no `=`
gets the empty value, as `URLSearchParams` does). -/
def parseQueryString (q : String) : List (String × String) :=
  if q = "" then []
  else
    (splitCharsOn '&' q.toList).map fun kv =>
      match breakAtChar '=' kv with
      | none => (String.mk kv, "")
      | some (k, v) => (String.mk k, String.mk v)

/-- Model of `new URL(s)`: `some` iff parsing succeeds. -/
def urlParse (s : String) : Option URL :=
  if hasValidScheme s then
    let (b, q) := splitAtQuery s
    some { base := b, searchParams := parseQueryString q }
  else none

/-- Serialize query pairs as `k=v` joined with `&`. -/
def queryToString : List (String × String) → String
  | [] => ""
  | [p] => p.1 ++ "=" ++ p.2
  | p :: rest => p.1 ++ "=" ++ p.2 ++ "&" ++ queryToString rest

/-- Model of `url.toString()`. -/
def URL.toString (u : URL) : String :=
  if u.searchParams.isEmpty then u.base
  else u.base ++ "?" ++ queryToString u.searchParams

/-- The `TypeError` raised by `new URL` on an unparsable string. -/
def urlTypeError (s : String) : Exn :=
  { name := "TypeError", message := "Invalid URL: " ++ s }

/-- Embedding of `buildUrl` (lines 101-115): absent or empty `params` return the base
unchanged; otherwise the base is parsed as a URL (which can throw — an
`Except.error` here), each entry is appended to `searchParams` with the
value stringified, and the URL is serialized. -/
def buildUrl (baseUrl : String) (params : Option (List (String × Prim))) :
    Except Exn String :=
  match params with
  | none => .ok baseUrl
  | some ps =>
    if ps.isEmpty then .ok baseUrl
    else
      match urlParse baseUrl with
      | none => .error (urlTypeError baseUrl)
      | some u =>
        .ok (URL.toString
          { u with
            searchParams :=
              u.searchParams ++ ps.map fun p => (p.1, p.2.toJSString) })

/-! ## The platform `fetch` (external collaborator) -/

deriving instance DecidableEq for Except

/-- A platform `Response`, as far as the code reads it.  The four body
fields give the outcome of `res.json()` / `res.text()` / `res.blob()` /
`res.arrayBuffer()` on this response (each may reject, e.g. malformed
JSON). -/
structure Response (T : Type) where
  status : Nat
  statusText : String
  headers : List (String × String)
  jsonBody : Except Exn T
  textBody : Except Exn T
  blobBody : Except Exn T
  arrayBufferBody : Except Exn T
deriving DecidableEq, Repr

/-- Platform `res.ok`: status in the 200-299 range. -/
def Response.ok {T : Type} (r : Response T) : Bool :=
  200 ≤ r.status && r.status ≤ 299

/-- Outcome of one `await fetch(...)`: the promise either rejects with an
exception (transport failure or abort) or resolves with a response. -/
inductive FetchResult (T : Type) where
  | raises (err : Exn)
  | responds (res : Response T)
deriving DecidableEq, Repr

/-- Embedding of `parseResponse` (lines 124-140).  At runtime the TS string-union
`responseType` is a plain string — the `default` branch throws
`new Error("Unsupported response type: ...")` for any string outside the
supported set. -/
def parseResponse {T : Type} (response : Response T) (responseType : String) :
    Except Exn T :=
  if responseType = "json" then response.jsonBody
  else if responseType = "text" then response.textBody
  else if responseType = "blob" then response.blobBody
  else if responseType = "arrayBuffer" then response.arrayBufferBody
  else .error { name := "Error"
                message := "Unsupported response type: " ++ responseType }

/-- Result of calling an `async` function: its promise either resolves
with a value or rejects with an uncaught exception. -/
inductive CallResult (T : Type) where
  | returns (result : ApiResult T)
  | throws (exn : Exn)
deriving DecidableEq, Repr

/-- The outgoing header set built in `fetchCore` (lines 171-178): a
`Content-Type: application/json` default is seeded when the decode mode
is `json`, then caller headers are spread over it (in a JS object spread
the later, caller-supplied entry wins on key collision; here the later
list entry shadows). -/
def requestHeaders (responseType : String) (headers : List (String × String)) :
    List (String × String) :=
  (if responseType = "json" then [("Content-Type", "application/json")]
   else []) ++ headers

/-- Embedding of `fetchCore` (lines 154-246).  One attempt: build the URL (NOTE: in
the source `buildUrl` is invoked *before* the `try` block, so its
`TypeError` escapes as `CallResult.throws`), issue the call, classify:
rejected promise → `network` failure (`AbortError` → timeout message, no
cause; otherwise network-error message with the exception as cause);
non-ok status → `http` failure carrying status and statusText; otherwise
decode the body, a decode failure becoming a `parse` failure and a
decode success the `success` result. -/
def fetchCore {T : Type} (options : ApiFetchOptions)
    (transport : FetchResult T) : CallResult T :=
  match buildUrl options.url options.params with
  | .error e => .throws e
  | .ok _fullUrl =>
    match transport with
    | .raises err =>
      if err.name = "AbortError" then
        .returns (.failure { type := .network, message := errorMap.TIMEOUT })
      else
        .returns (.failure
          { type := .network
            message := errorMap.NETWORK_ERROR
            raw := some err })
    | .responds res =>
      if !res.ok then
        .returns (.failure
          { type := .http
            status := some res.status
            statusText := some res.statusText
            message :=
              if res.statusText = "" then
                "HTTP error " ++ toString res.status
              else res.statusText })
      else
        match parseResponse res (options.responseType.getD "json") with
        | .error err =>
          .returns (.failure
            { type := .parse
              message := "Failed to parse " ++ options.responseType.getD "json" ++
                " response"
              raw := some err })
        | .ok data => .returns (.success data res.status res.statusText res.headers)

/-- The default retry-status list, inlined in the source at line 332
(`retryOn = [408, 429, 500, 502, 503, 504]` in the destructuring of the
retry options). -/
def defaultRetryOn : List Nat := [408, 429, 500, 502, 503, 504]

/-- The attempt-independent part of the retry decision (lines 346-350):
the failure is `http`-typed, its `status` is present, and the status is
a member of the retry list. -/
def retryableErr (retryOn : List Nat) (e : ApiError) : Bool :=
  decide (e.type = ApiErrorType.http) &&
    match e.status with
    | some s => retryOn.contains s
    | none => false

/-- Embedding of `shouldRetry` (lines 346-350): `attempt < maxRetries` AND the
failure qualifies for retry. -/
def shouldRetry (maxRetries : Nat) (retryOn : List Nat) (attempt : Nat)
    (e : ApiError) : Bool :=
  decide (attempt < maxRetries) && retryableErr retryOn e

/-- Trace of one `apiFetch` call: the returned (or thrown) value, how
many times `fetchCore` ran, and whether the timeout timer was armed
(line 318: `timeoutMs ? setTimeout(...) : null`). -/
structure ApiFetchTrace (T : Type) where
  result : CallResult T
  attempts : Nat
  timerArmed : Bool
deriving DecidableEq, Repr

/-- Whether `apiFetch` arms its internal deadline timer (lines 317-320):
`timeoutMs ? setTimeout(() => internalController.abort(), timeoutMs) :
null`.  JS truthiness: both `undefined` and `0` are falsy. -/
def timerArmed (timeoutMs : Option Nat) : Bool :=
  match timeoutMs with
  | none => false
  | some ms => ms != 0

/-- The `for (let attempt = 0; attempt <= maxRetries; attempt++)` loop of
`apiFetch` (lines 337-360), with `gas` the number of loop-guard checks
remaining (`apiFetch` enters with `gas = maxRetries + 1`, so the loop
indices are exactly `0 .. maxRetries`).  The second component of the
result counts the `fetchCore` calls made so far (`attempt` is the global
attempt index).  At `gas = 0` the loop has exited normally and the
source runs `return lastResult!` — unreachable in practice because
`shouldRetry` forces a return inside the loop at `attempt = maxRetries`;
a `none` last result would make the non-null assertion lie, modelled as
a `TypeError`. -/
def retryLoop {T : Type} (runAttempt : Nat → CallResult T) (maxRetries : Nat)
    (retryOn : List Nat) :
    (attempt : Nat) → (gas : Nat) → (lastResult : Option (ApiResult T)) →
      CallResult T × Nat
  | attempt, 0, lastResult =>
    (match lastResult with
     | some r => .returns r
     | none => .throws { name := "TypeError", message := "lastResult is null" },
     attempt)
  | attempt, gas + 1, _ =>
    match runAttempt attempt with
    | .throws e => (.throws e, attempt + 1)
    | .returns r =>
      match r with
      | .success data status statusText headers =>
        (.returns (.success data status statusText headers), attempt + 1)
      | .failure e =>
        if shouldRetry maxRetries retryOn attempt e then
          retryLoop runAttempt maxRetries retryOn (attempt + 1) gas
            (some (.failure e))
        else
          (.returns (.failure e), attempt + 1)

/-- Embedding of `apiFetch` (lines 304-364).  The transport oracle gives the result
of the platform `fetch` on each attempt index.  `await delay(retryDelay)`
only suspends and computes nothing, so it leaves no trace.  An exception
escaping `fetchCore` is not caught (the `try`/`finally` has no `catch`),
so it propagates as `CallResult.throws`. -/
def apiFetch {T : Type} (options : ApiFetchOptions)
    (transport : Nat → FetchResult T) : ApiFetchTrace T :=
  let armed := timerArmed options.timeoutMs
  match options.retry with
  | none =>
    { result := fetchCore options (transport 0), attempts := 1
      timerArmed := armed }
  | some retry =>
    if retry.maxRetries = 0 then
      { result := fetchCore options (transport 0), attempts := 1
        timerArmed := armed }
    else
      let r :=
        retryLoop (fun a => fetchCore options (transport a)) retry.maxRetries
          (retry.retryOn.getD defaultRetryOn) 0 (retry.maxRetries + 1) none
      { result := r.1, attempts := r.2, timerArmed := armed }

/-! ## Convenience forwarders (lines 390-446)

Each sets the method and forwards; the `options` argument models the
TS `Omit<ApiFetchOptions, ...>` third parameter, whose excluded fields
are overridden here.  Bodies are not modelled (see `ApiFetchOptions`). -/

/-- Embedding of `get` (lines 390-401): sets `method: "GET"` and the given params. -/
def get {T : Type} (url : String) (params : Option (List (String × Prim)))
    (options : ApiFetchOptions) (transport : Nat → FetchResult T) :
    ApiFetchTrace T :=
  apiFetch { options with url := url, method := some "GET", params := params }
    transport

/-- Embedding of `post` (lines 409-420): sets `method: "POST"`. -/
def post {T : Type} (url : String) (options : ApiFetchOptions)
    (transport : Nat → FetchResult T) : ApiFetchTrace T :=
  apiFetch { options with url := url, method := some "POST" } transport

/-- Embedding of `put` (lines 425-436): sets `method: "PUT"`. -/
def put {T : Type} (url : String) (options : ApiFetchOptions)
    (transport : Nat → FetchResult T) : ApiFetchTrace T :=
  apiFetch { options with url := url, method := some "PUT" } transport

/-- Embedding of `del` (lines 441-446): sets `method: "DELETE"`. -/
def del {T : Type} (url : String) (options : ApiFetchOptions)
    (transport : Nat → FetchResult T) : ApiFetchTrace T :=
  apiFetch { options with url := url, method := some "DELETE" } transport

/-! ## Concrete fixtures used by witnesses and counterexamples -/

/-- A 200 response whose body decodes in every mode. -/
def okResp : Response Nat :=
  { status := 200, statusText := "OK", headers := [("content-type", "application/json")]
    jsonBody := .ok 1, textBody := .ok 2, blobBody := .ok 3
    arrayBufferBody := .ok 4 }

/-- A 500 response. -/
def resp500 : Response Nat :=
  { status := 500, statusText := "Internal Server Error", headers := []
    jsonBody := .ok 0, textBody := .ok 0, blobBody := .ok 0
    arrayBufferBody := .ok 0 }

/-- A 503 response. -/
def resp503 : Response Nat :=
  { status := 503, statusText := "Service Unavailable", headers := []
    jsonBody := .ok 0, textBody := .ok 0, blobBody := .ok 0
    arrayBufferBody := .ok 0 }

/-! ## Helper lemmas -/

section Lemmas

variable {T : Type}

/-- If every attempt yields a retryable `http` failure, the retry loop
runs to `attempt = maxRetries` and returns that last failure. -/
theorem retryLoop_all_retryable (runAttempt : Nat → CallResult T)
    (maxRetries : Nat) (retryOn : List Nat) (E : Nat → ApiError)
    (hall : ∀ a, runAttempt a = .returns (.failure (E a)))
    (hretry : ∀ a, retryableErr retryOn (E a) = true) :
    ∀ gas attempt last, attempt + gas = maxRetries + 1 → 1 ≤ gas →
      retryLoop runAttempt maxRetries retryOn attempt gas last =
        (.returns (.failure (E maxRetries)), maxRetries + 1) := by
  intro gas
  induction gas with
  | zero => intro attempt last _ h1; omega
  | succ g ih =>
    intro attempt last hsum _
    rcases Nat.eq_zero_or_pos g with hg | hg
    · subst hg
      have ha : attempt = maxRetries := by omega
      subst ha
      simp [retryLoop, hall, shouldRetry]
    · have hlt : attempt < maxRetries := by omega
      have hstep :
          retryLoop runAttempt maxRetries retryOn attempt (g + 1) last =
            retryLoop runAttempt maxRetries retryOn (attempt + 1) g
              (some (.failure (E attempt))) := by
        simp [retryLoop, hall attempt, shouldRetry, hretry attempt, hlt]
      rw [hstep, ih (attempt + 1) _ (by omega) (by omega)]

/-- If the first attempt fails in a way the retry policy does not cover,
`apiFetch` stops after exactly one attempt and returns that failure. -/
theorem apiFetch_first_terminal (options : ApiFetchOptions)
    (transport : Nat → FetchResult T) (e : ApiError)
    (h0 : fetchCore options (transport 0) = .returns (.failure e))
    (hnr : ∀ p, options.retry = some p →
      retryableErr (p.retryOn.getD defaultRetryOn) e = false) :
    apiFetch options transport =
      { result := .returns (.failure e), attempts := 1
        timerArmed := timerArmed options.timeoutMs } := by
  unfold apiFetch
  cases hr : options.retry with
  | none => simp [h0]
  | some p =>
    by_cases hm : p.maxRetries = 0
    · simp [hm, h0]
    · have hnr' := hnr p hr
      have hgas : p.maxRetries + 1 = (p.maxRetries - 1) + 1 + 1 := by omega
      simp only [hm, if_false, hgas]
      simp [retryLoop, h0, shouldRetry, hnr']

/-- If the first attempt throws, the exception propagates out of
`apiFetch` and exactly one attempt occurs. -/
theorem apiFetch_first_throws (options : ApiFetchOptions)
    (transport : Nat → FetchResult T) (ex : Exn)
    (h0 : fetchCore options (transport 0) = .throws ex) :
    apiFetch options transport =
      { result := .throws ex, attempts := 1
        timerArmed := timerArmed options.timeoutMs } := by
  unfold apiFetch
  cases hr : options.retry with
  | none => simp [h0]
  | some p =>
    by_cases hm : p.maxRetries = 0
    · simp [hm, h0]
    · have hgas : p.maxRetries + 1 = (p.maxRetries - 1) + 1 + 1 := by omega
      simp only [hm, if_false, hgas]
      simp [retryLoop, h0]

/-- Every failure `fetchCore` returns satisfies the status-field
invariant: `network` failures carry no status, `http` failures carry
both status and statusText. -/
theorem fetchCore_failure_inv (options : ApiFetchOptions)
    (t : FetchResult T) (e : ApiError)
    (h : fetchCore options t = .returns (.failure e)) :
    (e.type = ApiErrorType.network → e.status = none) ∧
    (e.type = ApiErrorType.http →
      e.status.isSome = true ∧ e.statusText.isSome = true) := by
  unfold fetchCore at h
  split at h
  · cases h
  · split at h
    · split at h
      · injection h with h1
        injection h1 with h2
        subst h2
        simp
      · injection h with h1
        injection h1 with h2
        subst h2
        simp
    · split at h
      · injection h with h1
        injection h1 with h2
        subst h2
        simp
      · split at h
        · injection h with h1
          injection h1 with h2
          subst h2
          simp
        · cases h

/-- Any failure coming out of the retry loop was produced by one of the
attempts, unless it was the carried-in last result. -/
theorem retryLoop_failure_origin (runAttempt : Nat → CallResult T)
    (maxRetries : Nat) (retryOn : List Nat) :
    ∀ gas attempt last e,
      (retryLoop runAttempt maxRetries retryOn attempt gas last).1 =
        .returns (.failure e) →
      (∃ a, runAttempt a = .returns (.failure e)) ∨
        last = some (.failure e) := by
  intro gas
  induction gas with
  | zero =>
    intro attempt last e h
    cases last with
    | none => cases h
    | some r =>
      simp [retryLoop] at h
      right
      rw [h]
  | succ g ih =>
    intro attempt last e h
    cases hr : runAttempt attempt with
    | throws ex => simp [retryLoop, hr] at h
    | returns r =>
      cases r with
      | success d st stx hs => simp [retryLoop, hr] at h
      | failure e' =>
        by_cases hs : shouldRetry maxRetries retryOn attempt e' = true
        · have h' :
              (retryLoop runAttempt maxRetries retryOn (attempt + 1) g
                (some (.failure e'))).1 = .returns (.failure e) := by
            simpa [retryLoop, hr, hs] using h
          rcases ih (attempt + 1) _ e h' with h1 | h2
          · exact .inl h1
          · refine .inl ⟨attempt, ?_⟩
            rw [hr]
            injection h2 with h3
            rw [h3]
        · simp [retryLoop, hr, hs] at h
          exact .inl ⟨attempt, by rw [hr, h]⟩

/-- If attempts `0 .. k-1` all yield retryable failures and attempt `k`
(still within the loop range) yields a failure the policy does not
cover, the loop stops right there and returns attempt `k`'s failure
after `k + 1` attempts. -/
theorem retryLoop_terminal_at (runAttempt : Nat → CallResult T)
    (maxRetries : Nat) (retryOn : List Nat) (k : Nat) (E : Nat → ApiError)
    (e : ApiError)
    (hprev : ∀ a, a < k →
      runAttempt a = .returns (.failure (E a)) ∧
      retryableErr retryOn (E a) = true)
    (hk : runAttempt k = .returns (.failure e))
    (hnr : retryableErr retryOn e = false)
    (hkm : k ≤ maxRetries) :
    ∀ gas attempt last, attempt + gas = maxRetries + 1 → attempt ≤ k →
      retryLoop runAttempt maxRetries retryOn attempt gas last =
        (.returns (.failure e), k + 1) := by
  intro gas
  induction gas with
  | zero => intro attempt last hsum hak; omega
  | succ g ih =>
    intro attempt last hsum hak
    rcases Nat.lt_or_ge attempt k with hlt | hge
    · obtain ⟨ha, hre⟩ := hprev attempt hlt
      have hstep :
          retryLoop runAttempt maxRetries retryOn attempt (g + 1) last =
            retryLoop runAttempt maxRetries retryOn (attempt + 1) g
              (some (.failure (E attempt))) := by
        have hm : attempt < maxRetries := by omega
        simp [retryLoop, ha, shouldRetry, hre, hm]
      rw [hstep, ih (attempt + 1) _ (by omega) (by omega)]
    · have hek : attempt = k := by omega
      subst hek
      simp [retryLoop, hk, shouldRetry, hnr]

end Lemmas

/-! ## The claims -/

section Claims

variable {T : Type}

/-- Lemma: `retryableErr` decoded into the claim's logical form. -/
theorem retryableErr_eq_true_iff (retryOn : List Nat) (e : ApiError) :
    retryableErr retryOn e = true ↔
      e.type = ApiErrorType.http ∧ ∃ s, e.status = some s ∧ s ∈ retryOn := by
  unfold retryableErr
  cases hs : e.status with
  | none => simp
  | some s => simp

/-- The timer-armed bit of a trace always reflects `timerArmed` of the
request's `timeoutMs`. -/
theorem apiFetch_timerArmed_eq (options : ApiFetchOptions)
    (transport : Nat → FetchResult T) :
    (apiFetch options transport).timerArmed = timerArmed options.timeoutMs := by
  unfold apiFetch
  cases options.retry with
  | none => rfl
  | some p => by_cases h : p.maxRetries = 0 <;> simp [h]

/-- C1: with `maxRetries = N ≥ 1` and every attempt failing with a
retryable http status, exactly `N + 1` attempts occur and the final
(N+1)th failure is returned. -/
theorem apiFetch_retry_bound (options : ApiFetchOptions)
    (transport : Nat → FetchResult T) (p : RetryOptions)
    (E : Nat → ApiError) (S : Nat → Nat)
    (hretry : options.retry = some p) (hN : 1 ≤ p.maxRetries)
    (hall : ∀ a, fetchCore options (transport a) = .returns (.failure (E a)))
    (htype : ∀ a, (E a).type = ApiErrorType.http)
    (hstatus : ∀ a, (E a).status = some (S a))
    (hmem : ∀ a, S a ∈ p.retryOn.getD defaultRetryOn) :
    apiFetch options transport =
      { result := .returns (.failure (E p.maxRetries))
        attempts := p.maxRetries + 1
        timerArmed := timerArmed options.timeoutMs } := by
  have hre : ∀ a, retryableErr (p.retryOn.getD defaultRetryOn) (E a) = true := by
    intro a
    rw [retryableErr_eq_true_iff]
    exact ⟨htype a, S a, hstatus a, hmem a⟩
  have hm : ¬ p.maxRetries = 0 := by omega
  simp only [apiFetch, hretry, if_neg hm]
  rw [retryLoop_all_retryable (fun a => fetchCore options (transport a))
    p.maxRetries (p.retryOn.getD defaultRetryOn) E hall hre
    (p.maxRetries + 1) 0 none (by omega) (by omega)]

/-- C1 witness: `maxRetries = 2`, every attempt a 500 → 3 attempts. -/
theorem apiFetch_retry_bound_witness :
    apiFetch { url := "https://x/y"
               retry := some { maxRetries := 2, retryDelay := 10 } }
        (fun _ => .responds resp500) =
      { result := .returns (.failure
          { type := .http, status := some 500
            statusText := some "Internal Server Error"
            message := "Internal Server Error" })
        attempts := 3, timerArmed := false } := by
  exact apiFetch_retry_bound
    { url := "https://x/y", retry := some { maxRetries := 2, retryDelay := 10 } }
    (fun _ => .responds resp500)
    { maxRetries := 2, retryDelay := 10 }
    (fun _ => { type := .http, status := some 500
                statusText := some "Internal Server Error"
                message := "Internal Server Error" })
    (fun _ => 500)
    rfl (by decide) (fun _ => rfl) (fun _ => rfl) (fun _ => rfl)
    (fun _ => (by decide : (500 : Nat) ∈ defaultRetryOn))

/-- C2: in the retry loop of `apiFetch` a further attempt is made only
if `attempt < maxRetries` AND the failure is http-kind AND its status
is in the retry-status set; at whatever attempt `k` the loop has
reached (after `k` retryable http failures), any other failure —
network, parse, or an http status outside the set — terminates the
loop immediately: exactly `k + 1` attempts occur and that failure is
returned. -/
theorem apiFetch_terminal_failure (options : ApiFetchOptions)
    (transport : Nat → FetchResult T) (p : RetryOptions) (k : Nat)
    (E : Nat → ApiError) (e : ApiError)
    (hretry : options.retry = some p) (hkm : k ≤ p.maxRetries)
    (hprev : ∀ a, a < k →
      fetchCore options (transport a) = .returns (.failure (E a)) ∧
      (E a).type = ApiErrorType.http ∧
      ∃ s, (E a).status = some s ∧ s ∈ p.retryOn.getD defaultRetryOn)
    (hke : fetchCore options (transport k) = .returns (.failure e))
    (hnr : ¬ (e.type = ApiErrorType.http ∧
      ∃ s, e.status = some s ∧ s ∈ p.retryOn.getD defaultRetryOn)) :
    apiFetch options transport =
      { result := .returns (.failure e), attempts := k + 1
        timerArmed := timerArmed options.timeoutMs } := by
  have hnr' : retryableErr (p.retryOn.getD defaultRetryOn) e = false := by
    cases hb : retryableErr (p.retryOn.getD defaultRetryOn) e with
    | false => rfl
    | true => exact absurd ((retryableErr_eq_true_iff _ e).mp hb) hnr
  have hprev' : ∀ a, a < k →
      fetchCore options (transport a) = .returns (.failure (E a)) ∧
      retryableErr (p.retryOn.getD defaultRetryOn) (E a) = true := by
    intro a ha
    obtain ⟨h1, h2, s, h3, h4⟩ := hprev a ha
    exact ⟨h1, (retryableErr_eq_true_iff _ _).mpr ⟨h2, s, h3, h4⟩⟩
  by_cases hm : p.maxRetries = 0
  · have hk0 : k = 0 := by omega
    subst hk0
    simp [apiFetch, hretry, hm, hke]
  · simp only [apiFetch, hretry, if_neg hm]
    rw [retryLoop_terminal_at (fun a => fetchCore options (transport a))
      p.maxRetries (p.retryOn.getD defaultRetryOn) k E e hprev' hke hnr' hkm
      (p.maxRetries + 1) 0 none (by omega) (by omega)]

/-- C2 witness, `retryOn = [500]`: an immediate 503 → exactly 1
attempt; a retryable 500 at attempt 0 followed by a 503 at attempt 1 →
exactly 2 attempts, the 503 failure returned. -/
theorem apiFetch_terminal_failure_witness :
    apiFetch { url := "https://x/y"
               retry := some { maxRetries := 3, retryDelay := 1
                               retryOn := some [500] } }
        (fun _ => .responds resp503) =
      { result := .returns (.failure
          { type := .http, status := some 503
            statusText := some "Service Unavailable"
            message := "Service Unavailable" })
        attempts := 1, timerArmed := false } ∧
    apiFetch { url := "https://x/y"
               retry := some { maxRetries := 3, retryDelay := 1
                               retryOn := some [500] } }
        (fun a => if a = 0 then .responds resp500 else .responds resp503) =
      { result := .returns (.failure
          { type := .http, status := some 503
            statusText := some "Service Unavailable"
            message := "Service Unavailable" })
        attempts := 2, timerArmed := false } := by
  constructor
  · exact apiFetch_terminal_failure
      { url := "https://x/y"
        retry := some { maxRetries := 3, retryDelay := 1, retryOn := some [500] } }
      (fun _ => .responds resp503)
      { maxRetries := 3, retryDelay := 1, retryOn := some [500] } 0
      (fun _ => { type := .http, message := "" })
      { type := .http, status := some 503
        statusText := some "Service Unavailable"
        message := "Service Unavailable" }
      rfl (Nat.zero_le _)
      (fun a ha => absurd ha (Nat.not_lt_zero a))
      rfl
      (by rintro ⟨-, s, hs, hm⟩
          injection hs with h
          subst h
          exact absurd hm (by decide))
  · exact apiFetch_terminal_failure
      { url := "https://x/y"
        retry := some { maxRetries := 3, retryDelay := 1, retryOn := some [500] } }
      (fun a => if a = 0 then .responds resp500 else .responds resp503)
      { maxRetries := 3, retryDelay := 1, retryOn := some [500] } 1
      (fun _ => { type := .http, status := some 500
                  statusText := some "Internal Server Error"
                  message := "Internal Server Error" })
      { type := .http, status := some 503
        statusText := some "Service Unavailable"
        message := "Service Unavailable" }
      rfl (by decide)
      (fun a ha => by
        have h0 : a = 0 := by omega
        subst h0
        exact ⟨rfl, rfl, 500, rfl, by decide⟩)
      rfl
      (by rintro ⟨-, s, hs, hm⟩
          injection hs with h
          subst h
          exact absurd hm (by decide))

/-- C3 (code bug): at a request with non-empty params and an invalid
base URL, the `TypeError` from URL construction escapes `apiFetch` (and
the `get` forwarder) as a thrown exception — `buildUrl` is invoked
before the `try` in `fetchCore` — contradicting the claim that no
internal exception crosses the public boundary. -/
theorem apiFetch_invalid_url_exception_eval :
    (apiFetch (T := Nat)
        { url := "not a url", params := some [("a", Prim.str "1")] }
        (fun _ => .responds okResp)).result =
      .throws { name := "TypeError", message := "Invalid URL: not a url" } ∧
    (get (T := Nat) "not a url" (some [("a", Prim.str "1")]) { url := "" }
        (fun _ => .responds okResp)).result =
      .throws { name := "TypeError", message := "Invalid URL: not a url" } :=
  ⟨rfl, rfl⟩

/-- C4 counterexample: at that same request the operation does not
produce any typed Failure (let alone a `parse` one) — it throws. -/
theorem apiFetch_invalid_url_not_parse_cex :
    (apiFetch (T := Nat)
        { url := "not a url", params := some [("a", Prim.str "1")] }
        (fun _ => .responds okResp)).result =
      .throws { name := "TypeError", message := "Invalid URL: not a url" } ∧
    ¬ ∃ e : ApiError,
      (apiFetch (T := Nat)
          { url := "not a url", params := some [("a", Prim.str "1")] }
          (fun _ => .responds okResp)).result =
        .returns (.failure e) := by
  refine ⟨rfl, ?_⟩
  rintro ⟨e, he⟩
  rw [show (apiFetch (T := Nat)
      { url := "not a url", params := some [("a", Prim.str "1")] }
      (fun _ => .responds okResp)).result =
    .throws { name := "TypeError", message := "Invalid URL: not a url" }
    from rfl] at he
  cases he

/-- C4 (amended): with a non-empty query mapping and a base address
that does not parse as a URL, the URL-construction `TypeError`
propagates out of `apiFetch` as an exception after a single attempt; no
typed Failure is returned. -/
theorem apiFetch_invalid_url_throws (options : ApiFetchOptions)
    (transport : Nat → FetchResult T) (ps : List (String × Prim))
    (hps : options.params = some ps) (hne : ps ≠ [])
    (hbad : urlParse options.url = none) :
    apiFetch options transport =
      { result := .throws (urlTypeError options.url), attempts := 1
        timerArmed := timerArmed options.timeoutMs } := by
  apply apiFetch_first_throws
  obtain ⟨a, l, rfl⟩ := List.exists_cons_of_ne_nil hne
  simp only [fetchCore, buildUrl, hps, hbad]
  simp

/-- C4 witness. -/
theorem apiFetch_invalid_url_throws_witness :
    apiFetch (T := Nat)
        { url := "not a url", params := some [("a", Prim.str "1")] }
        (fun _ => .responds okResp) =
      { result := .throws { name := "TypeError"
                            message := "Invalid URL: not a url" }
        attempts := 1, timerArmed := false } := by
  exact apiFetch_invalid_url_throws
    { url := "not a url", params := some [("a", Prim.str "1")] }
    (fun _ => .responds okResp) [("a", Prim.str "1")] rfl (by decide) (by decide)

/-- C5 counterexample: with the (type-system-bypassing) decode mode
`"xml"` and a successful response, the failure kind is `parse` — the
`Error` thrown by `parseResponse` is caught by `fetchCore`'s decode
`catch` — not `unknown` as claimed. -/
theorem unsupported_mode_not_unknown_cex :
    (apiFetch (T := Nat)
        { url := "https://x/y", responseType := some "xml" }
        (fun _ => .responds okResp)).result =
      .returns (.failure
        { type := .parse, message := "Failed to parse xml response"
          raw := some { name := "Error"
                        message := "Unsupported response type: xml" } }) ∧
    ApiErrorType.parse ≠ ApiErrorType.unknown :=
  ⟨rfl, by decide⟩

/-- C5 (amended): an unsupported decode mode on a success-status
response yields, after one attempt, a `parse`-kind failure whose
message is `"Failed to parse {mode} response"` and whose cause is the
decoder's unsupported-type error. -/
theorem apiFetch_unsupported_mode_parse (options : ApiFetchOptions)
    (transport : Nat → FetchResult T) (res : Response T) (rt fullUrl : String)
    (hrt : options.responseType = some rt)
    (h1 : rt ≠ "json") (h2 : rt ≠ "text") (h3 : rt ≠ "blob")
    (h4 : rt ≠ "arrayBuffer")
    (hurl : buildUrl options.url options.params = .ok fullUrl)
    (htr : transport 0 = .responds res)
    (hok : res.ok = true) :
    apiFetch options transport =
      { result := .returns (.failure
          { type := .parse
            message := "Failed to parse " ++ rt ++ " response"
            raw := some { name := "Error"
                          message := "Unsupported response type: " ++ rt } })
        attempts := 1
        timerArmed := timerArmed options.timeoutMs } := by
  have hcore : fetchCore options (transport 0) =
      .returns (.failure
        { type := .parse
          message := "Failed to parse " ++ rt ++ " response"
          raw := some { name := "Error"
                        message := "Unsupported response type: " ++ rt } }) := by
    rw [htr]
    simp only [fetchCore]
    rw [hurl]
    simp [hok, parseResponse, hrt, h1, h2, h3, h4]
  apply apiFetch_first_terminal options transport _ hcore
  intro q hq
  rfl

/-- C5 witness. -/
theorem apiFetch_unsupported_mode_parse_witness :
    apiFetch (T := Nat) { url := "https://x/y", responseType := some "xml" }
        (fun _ => .responds okResp) =
      { result := .returns (.failure
          { type := .parse, message := "Failed to parse xml response"
            raw := some { name := "Error"
                          message := "Unsupported response type: xml" } })
        attempts := 1, timerArmed := false } := by
  exact apiFetch_unsupported_mode_parse
    { url := "https://x/y", responseType := some "xml" }
    (fun _ => .responds okResp) okResp "xml" "https://x/y"
    rfl (by decide) (by decide) (by decide) (by decide) rfl rfl rfl

/-- C6: `buildUrl` returns the base unchanged when the parameter
mapping is absent or empty; otherwise it parses the base as a URL,
appends each entry (key unchanged, value stringified) preserving order,
and returns the serialized URL. -/
theorem buildUrl_query_construction (base : String) :
    buildUrl base none = .ok base ∧
    buildUrl base (some []) = .ok base ∧
    (∀ ps b0, ps ≠ [] →
      urlParse base = some { base := b0, searchParams := [] } →
      buildUrl base (some ps) =
        .ok (b0 ++ "?" ++ queryToString (ps.map fun p => (p.1, p.2.toJSString)))) := by
  refine ⟨rfl, rfl, ?_⟩
  intro ps b0 hne hup
  obtain ⟨a, l, rfl⟩ : ∃ a l, ps = a :: l := by
    cases ps with
    | nil => exact absurd rfl hne
    | cons a l => exact ⟨a, l, rfl⟩
  simp [buildUrl, hup, URL.toString]

/-- C6 witness. -/
theorem buildUrl_query_construction_witness :
    buildUrl "https://x/y" (some [("a", Prim.num 1), ("b", Prim.str "two")]) =
      .ok "https://x/y?a=1&b=two" := by
  exact (buildUrl_query_construction "https://x/y").2.2
    [("a", Prim.num 1), ("b", Prim.str "two")] "https://x/y"
    (by decide) (by decide)

/-- C7: a completed call with a status outside the success range
yields an `http` failure carrying the exact status and statusText, with
message statusText or `"HTTP error {status}"` when the statusText is
empty; the body is never decoded (the outcome is unchanged under any
replacement of the four body decodings). -/
theorem fetchCore_http_failure (options : ApiFetchOptions)
    (res : Response T) (fullUrl : String)
    (hurl : buildUrl options.url options.params = .ok fullUrl)
    (hnok : res.ok = false) :
    fetchCore options (.responds res) =
      .returns (.failure
        { type := .http
          status := some res.status
          statusText := some res.statusText
          message :=
            if res.statusText = "" then "HTTP error " ++ toString res.status
            else res.statusText }) ∧
    (∀ jb tb bb ab,
      fetchCore options (.responds
        { res with jsonBody := jb, textBody := tb, blobBody := bb
                   arrayBufferBody := ab }) =
        fetchCore options (.responds res)) := by
  have key : ∀ r : Response T, r.status = res.status →
      r.statusText = res.statusText →
      fetchCore options (.responds r) =
        .returns (.failure
          { type := .http
            status := some res.status
            statusText := some res.statusText
            message :=
              if res.statusText = "" then "HTTP error " ++ toString res.status
              else res.statusText }) := by
    intro r h1 h2
    have hok : r.ok = false := by
      unfold Response.ok at hnok ⊢
      rw [h1]
      exact hnok
    simp only [fetchCore]
    rw [hurl]
    simp [hok, h1, h2]
  refine ⟨key res rfl rfl, fun jb tb bb ab => ?_⟩
  have hmod := key { res with jsonBody := jb, textBody := tb, blobBody := bb, arrayBufferBody := ab } rfl rfl
  rw [hmod, key res rfl rfl]

/-- C7 witness: a 404 with nonempty statusText. -/
theorem fetchCore_http_failure_witness :
    fetchCore { url := "https://x/y" }
        (.responds { okResp with status := 404, statusText := "Not Found" }) =
      .returns (.failure
        { type := .http, status := some 404, statusText := some "Not Found"
          message := "Not Found" }) := by
  exact (fetchCore_http_failure { url := "https://x/y" }
    { okResp with status := 404, statusText := "Not Found" }
    "https://x/y" rfl rfl).1

/-- C8: a raised transport condition is classified by its `name`:
`AbortError` → network failure with the timeout message and no cause;
anything else → network failure with the network-error message and the
raised value as cause. -/
theorem fetchCore_raised_classification (options : ApiFetchOptions)
    (err : Exn) (fullUrl : String)
    (hurl : buildUrl options.url options.params = .ok fullUrl) :
    fetchCore (T := T) options (.raises err) =
      .returns (.failure
        (if err.name = "AbortError" then
          { type := .network, message := errorMap.TIMEOUT }
         else
          { type := .network, message := errorMap.NETWORK_ERROR
            raw := some err })) := by
  unfold fetchCore
  rw [hurl]
  by_cases h : err.name = "AbortError" <;> simp [h]

/-- C8 witness: both branches at concrete exceptions. -/
theorem fetchCore_raised_classification_witness :
    fetchCore (T := Nat) { url := "https://x/y" }
        (.raises { name := "AbortError" }) =
      .returns (.failure
        { type := .network, message := "Request Timeout" }) ∧
    fetchCore (T := Nat) { url := "https://x/y" }
        (.raises { name := "TypeError", message := "fetch failed" }) =
      .returns (.failure
        { type := .network, message := "Network Error"
          raw := some { name := "TypeError", message := "fetch failed" } }) := by
  constructor
  · exact fetchCore_raised_classification { url := "https://x/y" }
      { name := "AbortError" } "https://x/y" rfl
  · exact fetchCore_raised_classification { url := "https://x/y" }
      { name := "TypeError", message := "fetch failed" } "https://x/y" rfl

/-- C9: every failure returned by `apiFetch` satisfies the
status-field invariant: a `network` failure never carries a status, an
`http` failure always carries both status and statusText. -/
theorem apiFetch_failure_status_inv (options : ApiFetchOptions)
    (transport : Nat → FetchResult T) (e : ApiError)
    (h : (apiFetch options transport).result = .returns (.failure e)) :
    (e.type = ApiErrorType.network → e.status = none) ∧
    (e.type = ApiErrorType.http →
      e.status.isSome = true ∧ e.statusText.isSome = true) := by
  unfold apiFetch at h
  cases hr : options.retry with
  | none =>
    rw [hr] at h
    simp at h
    exact fetchCore_failure_inv options (transport 0) e h
  | some p =>
    rw [hr] at h
    by_cases hm : p.maxRetries = 0
    · simp [hm] at h
      exact fetchCore_failure_inv options (transport 0) e h
    · simp [hm] at h
      rcases retryLoop_failure_origin
          (fun a => fetchCore options (transport a)) p.maxRetries
          (p.retryOn.getD defaultRetryOn) (p.maxRetries + 1) 0 none e h with
        ⟨a, ha⟩ | hlast
      · exact fetchCore_failure_inv options (transport a) e ha
      · cases hlast

/-- C9 witness: a retried 503 request ends in an http failure carrying
status and statusText. -/
theorem apiFetch_failure_status_inv_witness :
    (({ type := .http, status := some 503
        statusText := some "Service Unavailable"
        message := "Service Unavailable" } : ApiError).type =
          ApiErrorType.network →
      ({ type := .http, status := some 503
         statusText := some "Service Unavailable"
         message := "Service Unavailable" } : ApiError).status = none) ∧
    (({ type := .http, status := some 503
        statusText := some "Service Unavailable"
        message := "Service Unavailable" } : ApiError).type =
          ApiErrorType.http →
      ({ type := .http, status := some 503
         statusText := some "Service Unavailable"
         message := "Service Unavailable" } : ApiError).status.isSome = true ∧
      ({ type := .http, status := some 503
         statusText := some "Service Unavailable"
         message := "Service Unavailable" } : ApiError).statusText.isSome =
          true) := by
  exact apiFetch_failure_status_inv
    { url := "https://x/y", retry := some { maxRetries := 1, retryDelay := 0 } }
    (fun _ => .responds resp503)
    { type := .http, status := some 503
      statusText := some "Service Unavailable"
      message := "Service Unavailable" }
    rfl

/-- C10: with `timeoutMs = 0` the deadline timer is not armed
(`0` is falsy), and the call behaves exactly as with no time budget. -/
theorem apiFetch_zero_timeout_noop (options : ApiFetchOptions)
    (transport : Nat → FetchResult T) :
    (apiFetch { options with timeoutMs := some 0 } transport).timerArmed = false ∧
    apiFetch { options with timeoutMs := some 0 } transport =
      apiFetch { options with timeoutMs := none } transport := by
  refine ⟨?_, rfl⟩
  rw [apiFetch_timerArmed_eq]
  rfl

end Claims

end SimpleFetchApi
